import Mathlib

/-
Shallow embedding of the `small-powers-of-tau` accumulator
(src/accumulator.rs, src/update_proof.rs).

Group model: G1, G2 and the pairing target GT of BLS12-381 are cyclic of
prime order r (the scalar-field order).  We represent a group element by
its discrete logarithm with respect to the group generator, an element of
ZMod r.  Under this (isomorphic) representation:
  - the generator is 1,
  - the identity element (projective zero) is 0,
  - scalar multiplication (wnaf.mul) is field multiplication,
  - the bilinear pairing e(a·G1, b·G2) = gT^(a*b) is multiplication of
    exponents, and pairing equality is equality in ZMod r (gT has exact
    order r by non-degeneracy).
Every operation the Rust code performs on curve points (equality test,
is_zero, scalar multiplication, pairing comparison) is preserved exactly
by this representation.

Rust panics (slice indexing out of bounds, `.expect` on an empty slice)
are modelled by Option: a function returns `none` exactly when the Rust
code panics.

The files keypair.rs and shared_secret.rs of this repository are not in
the sources; the definitions taken from them are modelled from the spec
and marked as such in their doc comments.
-/

namespace SmallPowersOfTau

/-- Order of the BLS12-381 scalar field (the prime r). -/
def rBLS : ℕ := 52435875175126190479447740508185965837690552500527637822603658699938581184513

/-- The scalar field Fr of BLS12-381, in which private keys live. -/
abbrev Fr := ZMod rBLS

/-- A G1 point, represented by its discrete log w.r.t. the G1 generator. -/
abbrev G1 := ZMod rBLS

/-- A G2 point, represented by its discrete log w.r.t. the G2 generator. -/
abbrev G2 := ZMod rBLS

/-- A target-group element, represented by its discrete log w.r.t. e(g1, g2). -/
abbrev GT := ZMod rBLS

/-- `G1Projective::prime_subgroup_generator()`. -/
def g1Gen : G1 := 1

/-- `G2Projective::prime_subgroup_generator()`. -/
def g2Gen : G2 := 1

/-- Scalar multiplication of a G1 point (`wnaf.mul(point, scalar)`). -/
def g1Mul (s : Fr) (p : G1) : G1 := s * p

/-- Scalar multiplication of a G2 point. -/
def g2Mul (s : Fr) (p : G2) : G2 := s * p

/-- The bilinear pairing `Bls12_381::pairing`, in exponent coordinates. -/
def pairing (a : G1) (b : G2) : GT := a * b

/-- Modelled from the spec: keypair.rs is not in the sources.  §3 of the
spec: a Private Key is "a secret scalar plus a derived public commitment
(secret · G2 generator)"; `tau` is the secret scalar. -/
structure PrivateKey where
  tau : Fr
  deriving DecidableEq

/-- Modelled from the spec: `private_key.to_public()` returns the public
commitment, secret · G2 generator. -/
def PrivateKey.to_public (k : PrivateKey) : G2 := g2Mul k.tau g2Gen

/-- `struct Parameters` (accumulator.rs, lines 24-28). -/
structure Parameters where
  num_g1_elements_needed : ℕ
  num_g2_elements_needed : ℕ
  deriving DecidableEq

/-- `struct Accumulator` (accumulator.rs, lines 19-23). -/
structure Accumulator where
  tau_g1 : List G1
  tau_g2 : List G2
  deriving DecidableEq

/-- `struct UpdateProof` as constructed by `Accumulator::update`
(accumulator.rs, lines 75-79) and consumed by `verify_updates`
(lines 125-131): a commitment to the secret, the previous accumulated
point, and the new accumulated point.  (The declaration in
update_proof.rs omits the middle field; accumulator.rs, which both
creates and consumes the proofs, uses all three.) -/
structure UpdateProof where
  commitment_to_secret : G2
  previous_accumulated_point : G1
  new_accumulated_point : G1
  deriving DecidableEq

/-- `Accumulator::new` (accumulator.rs, lines 38-49): both vectors filled
with the group generator. -/
def Accumulator.new (parameters : Parameters) : Accumulator :=
  { tau_g1 := List.replicate parameters.num_g1_elements_needed g1Gen
    tau_g2 := List.replicate parameters.num_g2_elements_needed g2Gen }

/-- `Accumulator::new_for_kzg` (accumulator.rs, lines 56-66). -/
def Accumulator.new_for_kzg (num_coefficients : ℕ) : Accumulator :=
  Accumulator.new
    { num_g1_elements_needed := num_coefficients, num_g2_elements_needed := 2 }

/-- Helper for `vandemonde_challenge`: the loop
`for i in 0..n-1 { challenges.push(challenges[i] * x) }`, carrying the
last pushed element. -/
def vandemonde_aux (x : Fr) : ℕ → Fr → List Fr
  | 0, _ => []
  | k + 1, last => (last * x) :: vandemonde_aux x k (last * x)

/-- `vandemonde_challenge` (accumulator.rs, lines 201-208): pushes `x`,
then `n - 1` times pushes the previous element times `x`.  (In Rust
`0..n-1` underflows for `n = 0`; the function is only ever called with
`n ≥ 1`.) -/
def vandemonde_challenge (x : Fr) (n : ℕ) : List Fr :=
  x :: vandemonde_aux x (n - 1) x

/-- `max_number_elements` (accumulator.rs, line 87): the count passed to
`vandemonde_challenge` by `update_accumulator`. -/
def max_number_elements (acc : Accumulator) : ℕ :=
  max acc.tau_g1.length acc.tau_g2.length

/-- The `par_iter_mut().skip(1).zip(&powers)` loop (accumulator.rs,
lines 93-99 and 101-107): the head is untouched; each tail element is
multiplied by the corresponding power; tail elements beyond the powers
list (zip stops at the shorter side) are left unchanged. -/
def scale_tail (powers : List Fr) : List (ZMod rBLS) → List (ZMod rBLS)
  | [] => []
  | p :: rest =>
      p :: (List.zipWith (fun q w => w * q) rest powers ++ rest.drop powers.length)

/-- `Accumulator::update_accumulator` (accumulator.rs, lines 83-108). -/
def Accumulator.update_accumulator (acc : Accumulator) (private_key : Fr) : Accumulator :=
  let powers_of_priv_key := vandemonde_challenge private_key (max_number_elements acc)
  { tau_g1 := scale_tail powers_of_priv_key acc.tau_g1
    tau_g2 := scale_tail powers_of_priv_key acc.tau_g2 }

/-- `Accumulator::update` (accumulator.rs, lines 69-80).  `self.tau_g1[1]`
panics when `tau_g1` has fewer than two elements; the panic is modelled
by `none`.  Returns the updated accumulator together with the proof. -/
def Accumulator.update (acc : Accumulator) (private_key : PrivateKey) :
    Option (Accumulator × UpdateProof) :=
  match acc.tau_g1[1]? with
  | none => none
  | some previous_tau =>
    let acc' := acc.update_accumulator private_key.tau
    match acc'.tau_g1[1]? with
    | none => none
    | some updated_tau =>
        some (acc',
          { commitment_to_secret := private_key.to_public
            previous_accumulated_point := previous_tau
            new_accumulated_point := updated_tau })

/-- Modelled from the spec: shared_secret.rs is not in the sources.  §3
"Chain state": the current anchor plus the recorded transitions; §4.5:
the per-transition pairing check.  A transition is the pair
(new accumulated point, witness commitment). -/
structure SharedSecretChain where
  starting_point : G1
  transitions : List (G1 × G2)
  deriving DecidableEq

/-- Modelled from the spec: `SharedSecretChain::starting_from`. -/
def SharedSecretChain.starting_from (p : G1) : SharedSecretChain :=
  { starting_point := p, transitions := [] }

/-- Modelled from the spec: `SharedSecretChain::extend` records one
transition at the end of the chain. -/
def SharedSecretChain.extend (c : SharedSecretChain) (new_point : G1) (w : G2) :
    SharedSecretChain :=
  { starting_point := c.starting_point, transitions := c.transitions ++ [(new_point, w)] }

/-- Modelled from the spec (§4.5): fold the transitions left-to-right;
the anchor starts at the starting point; a transition to `new` with
witness `w` is checked by `e(new, g2) = e(anchor, w)` and advances the
anchor to `new`; true iff every check passes (the Bool conjunction
short-circuits on the first failure). -/
def chainVerifyFrom : G1 → List (G1 × G2) → Bool
  | _, [] => true
  | anchor, (new_point, w) :: rest =>
      decide (pairing new_point g2Gen = pairing anchor w) && chainVerifyFrom new_point rest

/-- Modelled from the spec: `SharedSecretChain::verify`. -/
def SharedSecretChain.verify (c : SharedSecretChain) : Bool :=
  chainVerifyFrom c.starting_point c.transitions

/-- `UpdateProof::verify_chain` (update_proof.rs, lines 19-37): build a
chain from the starting point, extend it with each proof's new point and
commitment, then verify it. -/
def UpdateProof.verify_chain (starting_point : G1) (update_proofs : List UpdateProof) : Bool :=
  (update_proofs.foldl
    (fun chain p => chain.extend p.new_accumulated_point p.commitment_to_secret)
    (SharedSecretChain.starting_from starting_point)).verify

/-- Modelled from the spec: accumulator.rs line 134 calls a one-argument
`UpdateProof::verify_chain(update_proofs)` that is not in the sources.
Per §3, the chain's anchor "starts at the pre-ceremony degree-1
element", which step 1 of `verify_updates` (line 125) equates with the
first proof's stored previous point; the transcript is verified as a
chain starting there. -/
def UpdateProof.verify_chain_transcript (update_proofs : List UpdateProof) : Bool :=
  match update_proofs with
  | [] => true
  | p :: _ => UpdateProof.verify_chain p.previous_accumulated_point update_proofs

/-- The G1 windows loop of `structure_check` (accumulator.rs, lines
174-183): for each adjacent pair (tau_i, tau_i_next), check
`e(tau_i_next, tau_g2_0) = e(tau_i, tau_g2_1)`. -/
def pairingCheckG1 (tau_g2_0 tau_g2_1 : G2) : List G1 → Bool
  | a :: b :: rest =>
      decide (pairing b tau_g2_0 = pairing a tau_g2_1) && pairingCheckG1 tau_g2_0 tau_g2_1 (b :: rest)
  | _ => true

/-- The G2 windows loop of `structure_check` (accumulator.rs, lines
186-195): for each adjacent pair (tau_i, tau_i_next), check
`e(tau_g1_0, tau_i_next) = e(tau_g1_1, tau_i)`. -/
def pairingCheckG2 (tau_g1_0 tau_g1_1 : G1) : List G2 → Bool
  | a :: b :: rest =>
      decide (pairing tau_g1_0 b = pairing tau_g1_1 a) && pairingCheckG2 tau_g1_0 tau_g1_1 (b :: rest)
  | _ => true

/-- `Accumulator::structure_check` (accumulator.rs, lines 166-198).  The
function first indexes `tau_g2[0]`, `tau_g2[1]`, `tau_g1[0]`,
`tau_g1[1]` (panicking, i.e. `none`, when either vector has fewer than
two elements), then runs both windows loops. -/
def Accumulator.structure_check (acc : Accumulator) : Option Bool :=
  match acc.tau_g2[0]? with
  | none => none
  | some tau_g2_0 =>
    match acc.tau_g2[1]? with
    | none => none
    | some tau_g2_1 =>
      match acc.tau_g1[0]? with
      | none => none
      | some tau_g1_0 =>
        match acc.tau_g1[1]? with
        | none => none
        | some tau_g1_1 =>
          some (pairingCheckG1 tau_g2_0 tau_g2_1 acc.tau_g1 &&
                pairingCheckG2 tau_g1_0 tau_g1_1 acc.tau_g2)

/-- `Accumulator::verify_updates` (accumulator.rs, lines 115-154),
mirroring the Rust evaluation order exactly: `first()`/`last()` with
`.expect` (none on an empty transcript), then each indexing operation
(none when out of bounds) interleaved with the early `return false`
checks. -/
def Accumulator.verify_updates (before after : Accumulator)
    (update_proofs : List UpdateProof) : Option Bool :=
  match update_proofs.head? with
  | none => none
  | some first_update =>
    match update_proofs.getLast? with
    | none => none
    | some last_update =>
      match before.tau_g1[1]? with
      | none => none
      | some before_tau_1 =>
        if before_tau_1 ≠ first_update.previous_accumulated_point then some false
        else
          match after.tau_g1[1]? with
          | none => none
          | some after_tau_1 =>
            if after_tau_1 ≠ last_update.new_accumulated_point then some false
            else if ¬ (UpdateProof.verify_chain_transcript update_proofs = true) then some false
            else
              match after.tau_g1[0]? with
              | none => none
              | some after_g1_0 =>
                if after_g1_0 = 0 then some false
                else
                  match after.tau_g2[0]? with
                  | none => none
                  | some after_g2_0 =>
                    if after_g2_0 = 0 then some false
                    else
                      match after.structure_check with
                      | none => none
                      | some sc => if ¬ (sc = true) then some false else some true

/-- `Accumulator::verify_update` (accumulator.rs, lines 156-162). -/
def Accumulator.verify_update (before after : Accumulator) (update_proof : UpdateProof) :
    Option Bool :=
  Accumulator.verify_updates before after [update_proof]

/-- Iterated updates: apply `update` for each key in order, threading the
accumulator (none as soon as one call panics). -/
def applyUpdates : Accumulator → List PrivateKey → Option Accumulator
  | acc, [] => some acc
  | acc, k :: ks =>
    match acc.update k with
    | none => none
    | some (acc', _) => applyUpdates acc' ks

/-- The chain condition stated in the spec's words (§4.5), for comparison
with the implementation: the anchor starts at the given point; each
proof's pairing check is evaluated against the current anchor and the
anchor advances to the proof's new accumulated point; the chain holds iff
every check holds. -/
def chainHolds : G1 → List UpdateProof → Prop
  | _, [] => True
  | anchor, p :: rest =>
      pairing p.new_accumulated_point g2Gen = pairing anchor p.commitment_to_secret ∧
        chainHolds p.new_accumulated_point rest

/-! ### Supporting lemmas -/

lemma foldl_extend_eq (ps : List UpdateProof) (c : SharedSecretChain) :
    ps.foldl
      (fun chain p => chain.extend p.new_accumulated_point p.commitment_to_secret) c =
      { starting_point := c.starting_point
        transitions := c.transitions ++
          ps.map (fun p => (p.new_accumulated_point, p.commitment_to_secret)) } := by
  induction ps generalizing c with
  | nil => simp
  | cons p rest ih =>
    rw [List.foldl_cons, ih]
    simp [SharedSecretChain.extend]

lemma verify_chain_eq (start : G1) (ps : List UpdateProof) :
    UpdateProof.verify_chain start ps =
      chainVerifyFrom start
        (ps.map (fun p => (p.new_accumulated_point, p.commitment_to_secret))) := by
  rw [UpdateProof.verify_chain, foldl_extend_eq]
  simp [SharedSecretChain.starting_from, SharedSecretChain.verify]

lemma verify_chain_nil (start : G1) : UpdateProof.verify_chain start [] = true := by
  rw [verify_chain_eq]
  rfl

lemma verify_chain_cons (start : G1) (p : UpdateProof) (rest : List UpdateProof) :
    UpdateProof.verify_chain start (p :: rest) =
      (decide (pairing p.new_accumulated_point g2Gen = pairing start p.commitment_to_secret) &&
        UpdateProof.verify_chain p.new_accumulated_point rest) := by
  rw [verify_chain_eq, verify_chain_eq]
  rfl

lemma verify_chain_iff_chainHolds (start : G1) (ps : List UpdateProof) :
    UpdateProof.verify_chain start ps = true ↔ chainHolds start ps := by
  induction ps generalizing start with
  | nil => simp [verify_chain_nil, chainHolds]
  | cons p rest ih =>
    rw [verify_chain_cons, chainHolds]
    simp [ih]

lemma scale_tail_length (powers : List Fr) (v : List (ZMod rBLS)) :
    (scale_tail powers v).length = v.length := by
  cases v with
  | nil => rfl
  | cons p rest =>
    simp only [scale_tail, List.length_cons, List.length_append,
      List.length_zipWith, List.length_drop]
    omega

lemma scale_tail_getElem?_zero (powers : List Fr) (v : List (ZMod rBLS)) :
    (scale_tail powers v)[0]? = v[0]? := by
  cases v with
  | nil => rfl
  | cons p rest => simp [scale_tail]

lemma zip_scale_getElem? (rest : List (ZMod rBLS)) (powers : List Fr) (j : ℕ)
    (hj : j < powers.length) :
    (List.zipWith (fun q w => w * q) rest powers ++ rest.drop powers.length)[j]? =
      (rest[j]?).map (fun q => powers.getD j 0 * q) := by
  induction rest generalizing powers j with
  | nil => simp
  | cons q rt ih =>
    cases powers with
    | nil => simp at hj
    | cons w pt =>
      cases j with
      | zero => simp
      | succ j =>
        simp only [List.zipWith_cons_cons, List.cons_append, List.drop_succ_cons,
          List.getElem?_cons_succ, List.getD_cons_succ]
        exact ih pt j (by simpa using hj)

lemma scale_tail_getElem?_succ (powers : List Fr) (v : List (ZMod rBLS)) (j : ℕ)
    (hj : j < powers.length) :
    (scale_tail powers v)[j + 1]? = (v[j + 1]?).map (fun q => powers.getD j 0 * q) := by
  cases v with
  | nil => simp [scale_tail]
  | cons p rest =>
    simp only [scale_tail, List.getElem?_cons_succ]
    exact zip_scale_getElem? rest powers j hj

lemma vandemonde_aux_spec (x : Fr) (k : ℕ) :
    ∀ m : ℕ, vandemonde_aux x k (x ^ m) = (List.range k).map (fun i => x ^ (m + i + 1)) := by
  induction k with
  | zero => intro m; rfl
  | succ k ih =>
    intro m
    simp only [vandemonde_aux]
    rw [← pow_succ, ih (m + 1), List.range_succ_eq_map, List.map_cons, List.map_map]
    congr 1
    apply List.map_congr_left
    intro a _
    simp only [Function.comp_apply]
    rw [show m + 1 + a + 1 = m + Nat.succ a + 1 from by omega]

lemma vandemonde_challenge_eq (x : Fr) (n : ℕ) (h : 1 ≤ n) :
    vandemonde_challenge x n = (List.range n).map (fun i => x ^ (i + 1)) := by
  obtain ⟨m, rfl⟩ : ∃ m, n = m + 1 := ⟨n - 1, by omega⟩
  have ha := vandemonde_aux_spec x m 1
  rw [pow_one] at ha
  rw [vandemonde_challenge, show m + 1 - 1 = m from rfl, ha, List.range_succ_eq_map,
    List.map_cons, List.map_map]
  congr 1
  · simp
  · apply List.map_congr_left
    intro a _
    simp only [Function.comp_apply]
    rw [show 1 + a + 1 = Nat.succ a + 1 from by omega]

lemma vandemonde_length (x : Fr) (n : ℕ) (h : 1 ≤ n) :
    (vandemonde_challenge x n).length = n := by
  rw [vandemonde_challenge_eq x n h]
  simp

lemma vandemonde_getD (x : Fr) (n j : ℕ) (h : 1 ≤ n) (hj : j < n) :
    (vandemonde_challenge x n).getD j 0 = x ^ (j + 1) := by
  rw [vandemonde_challenge_eq x n h, List.getD_eq_getElem?_getD,
    List.getElem?_map, List.getElem?_range hj]
  rfl

lemma scale_tail_vandemonde_getElem?_succ (x : Fr) (n : ℕ) (h1 : 1 ≤ n)
    (v : List (ZMod rBLS)) (hv : v.length ≤ n) (j : ℕ) :
    (scale_tail (vandemonde_challenge x n) v)[j + 1]? =
      (v[j + 1]?).map (fun q => x ^ (j + 1) * q) := by
  by_cases hj : j < n
  · rw [scale_tail_getElem?_succ _ _ j (by rw [vandemonde_length x n h1]; exact hj),
      vandemonde_getD x n j h1 hj]
  · have hle : v.length ≤ j + 1 := by omega
    have hle2 : (scale_tail (vandemonde_challenge x n) v).length ≤ j + 1 := by
      rw [scale_tail_length]
      exact hle
    rw [List.getElem?_eq_none hle, List.getElem?_eq_none hle2]
    rfl

lemma update_accumulator_tau_g1_length (acc : Accumulator) (x : Fr) :
    (acc.update_accumulator x).tau_g1.length = acc.tau_g1.length := by
  simp [Accumulator.update_accumulator, scale_tail_length]

lemma update_accumulator_tau_g2_length (acc : Accumulator) (x : Fr) :
    (acc.update_accumulator x).tau_g2.length = acc.tau_g2.length := by
  simp [Accumulator.update_accumulator, scale_tail_length]

lemma update_accumulator_getElem?_zero_g1 (acc : Accumulator) (x : Fr) :
    (acc.update_accumulator x).tau_g1[0]? = acc.tau_g1[0]? := by
  simp [Accumulator.update_accumulator, scale_tail_getElem?_zero]

lemma update_accumulator_getElem?_zero_g2 (acc : Accumulator) (x : Fr) :
    (acc.update_accumulator x).tau_g2[0]? = acc.tau_g2[0]? := by
  simp [Accumulator.update_accumulator, scale_tail_getElem?_zero]

lemma update_accumulator_getElem?_succ_g1 (acc : Accumulator) (x : Fr)
    (h : 1 ≤ max_number_elements acc) (j : ℕ) :
    (acc.update_accumulator x).tau_g1[j + 1]? =
      (acc.tau_g1[j + 1]?).map (fun q => x ^ (j + 1) * q) := by
  simp only [Accumulator.update_accumulator]
  exact scale_tail_vandemonde_getElem?_succ x _ h acc.tau_g1
    (le_max_left acc.tau_g1.length acc.tau_g2.length) j

lemma update_accumulator_getElem?_succ_g2 (acc : Accumulator) (x : Fr)
    (h : 1 ≤ max_number_elements acc) (j : ℕ) :
    (acc.update_accumulator x).tau_g2[j + 1]? =
      (acc.tau_g2[j + 1]?).map (fun q => x ^ (j + 1) * q) := by
  simp only [Accumulator.update_accumulator]
  exact scale_tail_vandemonde_getElem?_succ x _ h acc.tau_g2
    (le_max_right acc.tau_g1.length acc.tau_g2.length) j

lemma update_eq_some (acc : Accumulator) (k : PrivateKey) (h : 2 ≤ acc.tau_g1.length) :
    ∃ prev upd, acc.tau_g1[1]? = some prev ∧
      (acc.update_accumulator k.tau).tau_g1[1]? = some upd ∧
      acc.update k = some (acc.update_accumulator k.tau,
        { commitment_to_secret := k.to_public
          previous_accumulated_point := prev
          new_accumulated_point := upd }) := by
  cases hp : acc.tau_g1[1]? with
  | none =>
    rw [List.getElem?_eq_none_iff] at hp
    omega
  | some prev =>
    cases hu : (acc.update_accumulator k.tau).tau_g1[1]? with
    | none =>
      rw [List.getElem?_eq_none_iff, update_accumulator_tau_g1_length] at hu
      omega
    | some upd =>
      refine ⟨prev, upd, rfl, rfl, ?_⟩
      simp [Accumulator.update, hp, hu]

lemma update_result (acc : Accumulator) (k : PrivateKey) (acc' : Accumulator)
    (pr : UpdateProof) (h : acc.update k = some (acc', pr)) :
    acc' = acc.update_accumulator k.tau ∧
    acc.tau_g1[1]? = some pr.previous_accumulated_point ∧
    (acc.update_accumulator k.tau).tau_g1[1]? = some pr.new_accumulated_point ∧
    pr.commitment_to_secret = k.to_public := by
  cases hp : acc.tau_g1[1]? with
  | none => simp [Accumulator.update, hp] at h
  | some prev =>
    cases hu : (acc.update_accumulator k.tau).tau_g1[1]? with
    | none => simp [Accumulator.update, hp, hu] at h
    | some upd =>
      simp only [Accumulator.update, hp, hu, Option.some.injEq, Prod.mk.injEq] at h
      obtain ⟨ha, hpr⟩ := h
      subst ha
      rw [← hpr]
      exact ⟨rfl, rfl, rfl, rfl⟩

lemma update_none_iff (acc : Accumulator) (k : PrivateKey) :
    acc.update k = none ↔ acc.tau_g1.length < 2 := by
  constructor
  · intro h
    by_contra hlen
    push_neg at hlen
    obtain ⟨prev, upd, _, _, heq⟩ := update_eq_some acc k hlen
    rw [heq] at h
    exact absurd h (by simp)
  · intro hlen
    have hp : acc.tau_g1[1]? = none := by
      rw [List.getElem?_eq_none_iff]
      omega
    simp [Accumulator.update, hp]

lemma applyUpdates_getElem?_zero :
    ∀ (ks : List PrivateKey) (acc acc' : Accumulator),
      applyUpdates acc ks = some acc' →
      acc'.tau_g1[0]? = acc.tau_g1[0]? ∧ acc'.tau_g2[0]? = acc.tau_g2[0]? := by
  intro ks
  induction ks with
  | nil =>
    intro acc acc' h
    simp only [applyUpdates, Option.some.injEq] at h
    subst h
    exact ⟨rfl, rfl⟩
  | cons k ks ih =>
    intro acc acc' h
    cases hk : acc.update k with
    | none => simp [applyUpdates, hk] at h
    | some r =>
      simp only [applyUpdates, hk] at h
      obtain ⟨hr, _, _, _⟩ := update_result acc k r.1 r.2 (by rw [hk])
      obtain ⟨h1, h2⟩ := ih r.1 acc' h
      rw [h1, h2, hr, update_accumulator_getElem?_zero_g1,
        update_accumulator_getElem?_zero_g2]
      exact ⟨rfl, rfl⟩

lemma pairingCheckG1_iff (t0 t1 : G2) (l : List G1) :
    pairingCheckG1 t0 t1 l = true ↔
      List.Chain' (fun a b => pairing b t0 = pairing a t1) l := by
  induction l with
  | nil => simp [pairingCheckG1]
  | cons a tl ih =>
    cases tl with
    | nil => simp [pairingCheckG1]
    | cons b rest =>
      simp only [pairingCheckG1, Bool.and_eq_true, decide_eq_true_eq, List.chain'_cons]
      rw [ih]

lemma pairingCheckG2_iff (t0 t1 : G1) (l : List G2) :
    pairingCheckG2 t0 t1 l = true ↔
      List.Chain' (fun a b => pairing t0 b = pairing t1 a) l := by
  induction l with
  | nil => simp [pairingCheckG2]
  | cons a tl ih =>
    cases tl with
    | nil => simp [pairingCheckG2]
    | cons b rest =>
      simp only [pairingCheckG2, Bool.and_eq_true, decide_eq_true_eq, List.chain'_cons]
      rw [ih]

lemma chain'_iff_index {α : Type} (R : α → α → Prop) (l : List α) :
    List.Chain' R l ↔ ∀ (i : ℕ) (hi : i + 1 < l.length), R l[i] l[i + 1] := by
  rw [List.chain'_iff_get]
  constructor
  · intro h i hi
    have hr := h i (by omega)
    simpa [List.get_eq_getElem] using hr
  · intro h i hi
    have hr := h i (by omega)
    simpa [List.get_eq_getElem] using hr

lemma structure_check_eq (acc : Accumulator) (h1 : 2 ≤ acc.tau_g1.length)
    (h2 : 2 ≤ acc.tau_g2.length) :
    acc.structure_check =
      some (pairingCheckG1 acc.tau_g2[0] acc.tau_g2[1] acc.tau_g1 &&
            pairingCheckG2 acc.tau_g1[0] acc.tau_g1[1] acc.tau_g2) := by
  have e20 : acc.tau_g2[0]? = some acc.tau_g2[0] := List.getElem?_eq_getElem (by omega)
  have e21 : acc.tau_g2[1]? = some acc.tau_g2[1] := List.getElem?_eq_getElem (by omega)
  have e10 : acc.tau_g1[0]? = some acc.tau_g1[0] := List.getElem?_eq_getElem (by omega)
  have e11 : acc.tau_g1[1]? = some acc.tau_g1[1] := List.getElem?_eq_getElem (by omega)
  simp [Accumulator.structure_check, e20, e21, e10, e11]

lemma structure_check_none_iff (acc : Accumulator) :
    acc.structure_check = none ↔
      acc.tau_g1.length < 2 ∨ acc.tau_g2.length < 2 := by
  constructor
  · intro h
    by_contra hc
    push_neg at hc
    rw [structure_check_eq acc (by omega) (by omega)] at h
    exact absurd h (by simp)
  · intro h
    rcases h with h | h
    · cases e20 : acc.tau_g2[0]? with
      | none => simp [Accumulator.structure_check, e20]
      | some v20 =>
        cases e21 : acc.tau_g2[1]? with
        | none => simp [Accumulator.structure_check, e20, e21]
        | some v21 =>
          cases e10 : acc.tau_g1[0]? with
          | none => simp [Accumulator.structure_check, e20, e21, e10]
          | some v10 =>
            have e11 : acc.tau_g1[1]? = none := by
              rw [List.getElem?_eq_none_iff]
              omega
            simp [Accumulator.structure_check, e20, e21, e10, e11]
    · cases e20 : acc.tau_g2[0]? with
      | none => simp [Accumulator.structure_check, e20]
      | some v20 =>
        have e21 : acc.tau_g2[1]? = none := by
          rw [List.getElem?_eq_none_iff]
          omega
        simp [Accumulator.structure_check, e20, e21]

/-! ### Claim theorems -/

/-- C2: `verify_chain` folds the proof list left-to-right: the anchor
starts at the given starting point; each proof with commitment `C` and
new point `new` is checked by `e(new, g2 generator) = e(anchor, C)` and
the anchor then advances to `new`; the empty fold is true, a failing head
check makes the whole result false regardless of the tail (the Boolean
conjunction short-circuits), and the result is true iff every individual
check in the fold succeeds. -/
theorem verify_chain_fold_spec :
    (∀ start : G1, UpdateProof.verify_chain start [] = true) ∧
    (∀ (start : G1) (p : UpdateProof) (rest : List UpdateProof),
      UpdateProof.verify_chain start (p :: rest) =
        (decide (pairing p.new_accumulated_point g2Gen =
            pairing start p.commitment_to_secret) &&
          UpdateProof.verify_chain p.new_accumulated_point rest)) ∧
    (∀ (start : G1) (ps : List UpdateProof),
      UpdateProof.verify_chain start ps = true ↔ chainHolds start ps) :=
  ⟨verify_chain_nil, verify_chain_cons, verify_chain_iff_chainHolds⟩

/-- C9: verifying a ceremony with an empty transcript never succeeds:
`verify_updates` hits the `.expect("expected at least one update")` panic
(modelled by `none`) before returning any boolean, so it can never
return true for an empty proof list. -/
theorem verify_updates_empty_refused (before after : Accumulator) :
    Accumulator.verify_updates before after [] = none := rfl

/-- C3 (failing input): updating `Accumulator::new_for_kzg 3` with the
degenerate secret scalars 1 and 0 produces transitions that
`verify_update` ACCEPTS (`some true`), although the repository's own
tests `reject_private_key_one` and `reject_private_key_zero` assert that
it must return false.  With scalar 1 the accumulator is unchanged and
every pairing check holds; with scalar 0 every updated point is the
identity and every pairing check degenerates to the identity on both
sides; the non-identity checks only look at index 0, which `update`
never touches. -/
theorem degenerate_keys_pass_verify_update :
    ((Accumulator.new_for_kzg 3).update ⟨1⟩ =
        some (Accumulator.new_for_kzg 3, ⟨1, 1, 1⟩) ∧
      Accumulator.verify_update (Accumulator.new_for_kzg 3) (Accumulator.new_for_kzg 3)
        ⟨1, 1, 1⟩ = some true) ∧
    ((Accumulator.new_for_kzg 3).update ⟨0⟩ =
        some (⟨[1, 0, 0], [1, 0]⟩, ⟨0, 1, 0⟩) ∧
      Accumulator.verify_update (Accumulator.new_for_kzg 3) ⟨[1, 0, 0], [1, 0]⟩
        ⟨0, 1, 0⟩ = some true) := by decide

/-- C7 (counterexample): an UpdateProof produced by `update` does store
the previous accumulated point: updating a fresh 2-element accumulator
with secret 3 yields the proof ⟨3, 1, 3⟩ whose middle field
`previous_accumulated_point` records the pre-update degree-1 element
(the generator, exponent 1); and `verify_updates` reads that field out
of the proof: flipping only the stored previous point of the same proof
flips the verification outcome. -/
theorem update_proof_stores_previous_point :
    ((Accumulator.new ⟨2, 2⟩).update ⟨3⟩ = some (⟨[1, 3], [1, 3]⟩, ⟨3, 1, 3⟩) ∧
      (⟨3, 1, 3⟩ : UpdateProof).previous_accumulated_point = 1 ∧
      (Accumulator.new ⟨2, 2⟩).tau_g1[1]? = some 1) ∧
    (Accumulator.verify_updates (Accumulator.new ⟨2, 2⟩) ⟨[1, 3], [1, 3]⟩
        [⟨3, 1, 3⟩] = some true ∧
      Accumulator.verify_updates (Accumulator.new ⟨2, 2⟩) ⟨[1, 3], [1, 3]⟩
        [⟨3, 2, 3⟩] = some false) := by decide

/-- C6 (counterexample): the count that `update_accumulator` passes to
`vandemonde_challenge` is `max(len(tau_g1), len(tau_g2))` itself, not
`max(len(tau_g1), len(tau_g2)) - 1`: for an accumulator with 3 G1 and
2 G2 elements the count used is 3 while the claim's formula gives 2. -/
theorem vandemonde_count_counterexample :
    max_number_elements (Accumulator.new ⟨3, 2⟩) = 3 ∧
    max (Accumulator.new ⟨3, 2⟩).tau_g1.length
      (Accumulator.new ⟨3, 2⟩).tau_g2.length - 1 = 2 := by decide

/-- C4: `update` never changes index 0 of either vector: this holds for
the raw vector transformation `update_accumulator` for every key, for
every successful `update` call, and consequently, starting from a
freshly created Accumulator, `tau_g1[0]` and `tau_g2[0]` still equal
their group's generator after any sequence of updates. -/
theorem update_preserves_index_zero :
    (∀ (acc : Accumulator) (x : Fr),
      (acc.update_accumulator x).tau_g1[0]? = acc.tau_g1[0]? ∧
      (acc.update_accumulator x).tau_g2[0]? = acc.tau_g2[0]?) ∧
    (∀ (acc : Accumulator) (k : PrivateKey) (acc' : Accumulator) (pr : UpdateProof),
      acc.update k = some (acc', pr) →
      acc'.tau_g1[0]? = acc.tau_g1[0]? ∧ acc'.tau_g2[0]? = acc.tau_g2[0]?) ∧
    (∀ (p : Parameters) (ks : List PrivateKey) (acc' : Accumulator),
      applyUpdates (Accumulator.new p) ks = some acc' →
      (0 < p.num_g1_elements_needed → acc'.tau_g1[0]? = some g1Gen) ∧
      (0 < p.num_g2_elements_needed → acc'.tau_g2[0]? = some g2Gen)) := by
  refine ⟨fun acc x => ⟨update_accumulator_getElem?_zero_g1 acc x,
    update_accumulator_getElem?_zero_g2 acc x⟩, ?_, ?_⟩
  · intro acc k acc' pr h
    obtain ⟨ha, _, _, _⟩ := update_result acc k acc' pr h
    subst ha
    exact ⟨update_accumulator_getElem?_zero_g1 acc k.tau,
      update_accumulator_getElem?_zero_g2 acc k.tau⟩
  · intro p ks acc' h
    obtain ⟨h1, h2⟩ := applyUpdates_getElem?_zero ks (Accumulator.new p) acc' h
    constructor
    · intro hn
      rw [h1]
      simp [Accumulator.new, List.getElem?_replicate, hn]
    · intro hn
      rw [h2]
      simp [Accumulator.new, List.getElem?_replicate, hn]

/-- Witness for C4: two successive updates with secrets 3 and 5 on a
fresh 2-by-2 accumulator leave both index-0 entries at the generator. -/
theorem update_preserves_index_zero_witness :
    applyUpdates (Accumulator.new ⟨2, 2⟩) [⟨3⟩, ⟨5⟩] = some ⟨[1, 15], [1, 15]⟩ ∧
    (⟨[1, 15], [1, 15]⟩ : Accumulator).tau_g1[0]? = some g1Gen ∧
    (⟨[1, 15], [1, 15]⟩ : Accumulator).tau_g2[0]? = some g2Gen :=
  ⟨by decide,
    (update_preserves_index_zero.2.2 ⟨2, 2⟩ [⟨3⟩, ⟨5⟩] ⟨[1, 15], [1, 15]⟩
      (by decide)).1 (by decide),
    (update_preserves_index_zero.2.2 ⟨2, 2⟩ [⟨3⟩, ⟨5⟩] ⟨[1, 15], [1, 15]⟩
      (by decide)).2 (by decide)⟩

/-- C5: on an accumulator with at least 2 elements per vector, `update`
succeeds; it multiplies, for every index i ≥ 1 of both vectors, the
existing point by the i-th power of the secret (the (i-1)-th entry of
the Challenge Generator sequence), leaves index 0 of both vectors
untouched, and the returned proof carries the key's public commitment
and the new degree-1 G1 element `tau_g1[1]`. -/
theorem update_spec (acc : Accumulator) (k : PrivateKey)
    (h1 : 2 ≤ acc.tau_g1.length) (h2 : 2 ≤ acc.tau_g2.length) :
    (acc.update k).isSome = true ∧
    ∀ (acc' : Accumulator) (pr : UpdateProof), acc.update k = some (acc', pr) →
      acc'.tau_g1[0]? = acc.tau_g1[0]? ∧
      acc'.tau_g2[0]? = acc.tau_g2[0]? ∧
      (∀ i : ℕ, 1 ≤ i →
        acc'.tau_g1[i]? = (acc.tau_g1[i]?).map (fun q => g1Mul (k.tau ^ i) q)) ∧
      (∀ i : ℕ, 1 ≤ i →
        acc'.tau_g2[i]? = (acc.tau_g2[i]?).map (fun q => g2Mul (k.tau ^ i) q)) ∧
      pr.commitment_to_secret = k.to_public ∧
      acc'.tau_g1[1]? = some pr.new_accumulated_point := by
  have hmax : 1 ≤ max_number_elements acc := by
    unfold max_number_elements
    omega
  constructor
  · obtain ⟨prev, upd, _, _, heq⟩ := update_eq_some acc k h1
    rw [heq]
    rfl
  · intro acc' pr h
    obtain ⟨ha, hprev, hnew, hcomm⟩ := update_result acc k acc' pr h
    subst ha
    refine ⟨update_accumulator_getElem?_zero_g1 acc k.tau,
      update_accumulator_getElem?_zero_g2 acc k.tau, ?_, ?_, hcomm, hnew⟩
    · intro i hi
      obtain ⟨j, rfl⟩ : ∃ j, i = j + 1 := ⟨i - 1, by omega⟩
      exact update_accumulator_getElem?_succ_g1 acc k.tau hmax j
    · intro i hi
      obtain ⟨j, rfl⟩ : ∃ j, i = j + 1 := ⟨i - 1, by omega⟩
      exact update_accumulator_getElem?_succ_g2 acc k.tau hmax j

/-- Witness for C5: updating a fresh 2-by-2 accumulator with secret 3
succeeds and multiplies the degree-1 G1 element by 3^1. -/
theorem update_spec_witness :
    (2 ≤ (Accumulator.new ⟨2, 2⟩).tau_g1.length ∧
      2 ≤ (Accumulator.new ⟨2, 2⟩).tau_g2.length) ∧
    ((Accumulator.new ⟨2, 2⟩).update ⟨3⟩).isSome = true ∧
    (⟨[1, 3], [1, 3]⟩ : Accumulator).tau_g1[1]? =
      ((Accumulator.new ⟨2, 2⟩).tau_g1[1]?).map
        (fun q => g1Mul ((⟨3⟩ : PrivateKey).tau ^ 1) q) :=
  ⟨⟨by decide, by decide⟩,
    (update_spec (Accumulator.new ⟨2, 2⟩) ⟨3⟩ (by decide) (by decide)).1,
    (((update_spec (Accumulator.new ⟨2, 2⟩) ⟨3⟩ (by decide) (by decide)).2
      ⟨[1, 3], [1, 3]⟩ ⟨3, 1, 3⟩ (by decide)).2.2.1 1 (by decide))⟩

/-- C6 (amended): for every secret scalar `s` and count n ≥ 1 the
Challenge Generator is the pure deterministic sequence [s, s², …, sⁿ]
(for n = 0 the Rust loop bound underflows); the count `update` passes to
it is `max(len(tau_g1), len(tau_g2))` — not max - 1 — so one more power
than needed is produced and the final one is ignored by the zip. -/
theorem vandemonde_challenge_spec (x : Fr) (n : ℕ) (h : 1 ≤ n) :
    vandemonde_challenge x n = (List.range n).map (fun i => x ^ (i + 1)) ∧
    ∀ acc : Accumulator,
      max_number_elements acc = max acc.tau_g1.length acc.tau_g2.length :=
  ⟨vandemonde_challenge_eq x n h, fun _ => rfl⟩

/-- Witness for C6 (amended), at secret 2 and count 3. -/
theorem vandemonde_challenge_spec_witness :
    1 ≤ 3 ∧ vandemonde_challenge 2 3 = (List.range 3).map (fun i => (2 : Fr) ^ (i + 1)) :=
  ⟨by decide, (vandemonde_challenge_spec 2 3 (by decide)).1⟩

/-- C7 (amended): an UpdateProof as produced by `Accumulator::update`
carries a commitment to the secret, the previous accumulated point, and
the new accumulated point: every successful update stores the pre-update
`tau_g1[1]` in the proof's `previous_accumulated_point` field, the
post-update `tau_g1[1]` in `new_accumulated_point`, and the key's public
commitment in `commitment_to_secret`. -/
theorem update_proof_fields (acc : Accumulator) (k : PrivateKey) (acc' : Accumulator)
    (pr : UpdateProof) (h : acc.update k = some (acc', pr)) :
    acc.tau_g1[1]? = some pr.previous_accumulated_point ∧
    acc'.tau_g1[1]? = some pr.new_accumulated_point ∧
    pr.commitment_to_secret = k.to_public := by
  obtain ⟨ha, hprev, hnew, hcomm⟩ := update_result acc k acc' pr h
  subst ha
  exact ⟨hprev, hnew, hcomm⟩

/-- Witness for C7 (amended): the proof produced by updating a fresh
2-by-2 accumulator with secret 3 stores the pre-update degree-1
element. -/
theorem update_proof_fields_witness :
    (Accumulator.new ⟨2, 2⟩).update ⟨3⟩ = some (⟨[1, 3], [1, 3]⟩, ⟨3, 1, 3⟩) ∧
    (Accumulator.new ⟨2, 2⟩).tau_g1[1]? =
      some (⟨3, 1, 3⟩ : UpdateProof).previous_accumulated_point :=
  ⟨by decide,
    (update_proof_fields (Accumulator.new ⟨2, 2⟩) ⟨3⟩ ⟨[1, 3], [1, 3]⟩ ⟨3, 1, 3⟩
      (by decide)).1⟩

/-- C10 (counterexample): an accumulator whose `tau_g2` has fewer than
2 elements does not make every operation panic: `update` on
⟨[1, 1], []⟩ returns normally (it only indexes `tau_g1[1]`), and
`verify_updates` whose first comparison fails returns `some false`
before any index of the empty `tau_g2` is touched. -/
theorem short_vectors_not_always_panic :
    ((⟨[1, 1], []⟩ : Accumulator).tau_g2.length < 2 ∧
      (⟨[1, 1], []⟩ : Accumulator).update ⟨2⟩ =
        some (⟨[1, 2], []⟩, ⟨2, 1, 2⟩)) ∧
    Accumulator.verify_updates ⟨[1, 1], []⟩ ⟨[1, 1], []⟩ [⟨2, 5, 2⟩] =
      some false := by decide

/-- C8: for an accumulator with at least two elements in each vector,
`structure_check` returns true iff every adjacent pair of `tau_g1`
satisfies `e(tau_g1[i+1], tau_g2[0]) = e(tau_g1[i], tau_g2[1])` and
every adjacent pair of `tau_g2` satisfies
`e(tau_g1[0], tau_g2[i+1]) = e(tau_g1[1], tau_g2[i])`. -/
theorem structure_check_spec (acc : Accumulator) (h1 : 2 ≤ acc.tau_g1.length)
    (h2 : 2 ≤ acc.tau_g2.length) :
    acc.structure_check = some true ↔
      ((∀ (i : ℕ) (hi : i + 1 < acc.tau_g1.length),
          pairing acc.tau_g1[i + 1] acc.tau_g2[0] =
            pairing acc.tau_g1[i] acc.tau_g2[1]) ∧
       (∀ (i : ℕ) (hi : i + 1 < acc.tau_g2.length),
          pairing acc.tau_g1[0] acc.tau_g2[i + 1] =
            pairing acc.tau_g1[1] acc.tau_g2[i])) := by
  rw [structure_check_eq acc h1 h2]
  simp only [Option.some.injEq, Bool.and_eq_true]
  rw [pairingCheckG1_iff, pairingCheckG2_iff, chain'_iff_index, chain'_iff_index]

/-- Witness for C8: the valid powers-of-3 accumulator ⟨[1, 3], [1, 3]⟩
passes the structure check. -/
theorem structure_check_spec_witness :
    (2 ≤ (⟨[1, 3], [1, 3]⟩ : Accumulator).tau_g1.length ∧
      2 ≤ (⟨[1, 3], [1, 3]⟩ : Accumulator).tau_g2.length) ∧
    (⟨[1, 3], [1, 3]⟩ : Accumulator).structure_check = some true :=
  ⟨⟨by decide, by decide⟩,
    (structure_check_spec ⟨[1, 3], [1, 3]⟩ (by decide) (by decide)).mpr
      ⟨fun i hi => by
        have hlen : (⟨[1, 3], [1, 3]⟩ : Accumulator).tau_g1.length = 2 := rfl
        rw [hlen] at hi
        have h0 : i = 0 := by omega
        subst h0
        simp only [List.getElem_cons_zero, List.getElem_cons_succ]
        decide,
       fun i hi => by
        have hlen : (⟨[1, 3], [1, 3]⟩ : Accumulator).tau_g2.length = 2 := rfl
        rw [hlen] at hi
        have h0 : i = 0 := by omega
        subst h0
        simp only [List.getElem_cons_zero, List.getElem_cons_succ]
        decide⟩⟩

/-- C10 (amended): `new` performs no validation and allocates exactly the
requested lengths; `update` panics (none) exactly when `tau_g1` has
fewer than 2 elements — a short `tau_g2` alone does not make it panic;
`structure_check` panics exactly when either vector has fewer than 2
elements; `verify_updates` panics on an empty transcript, and panics on
a short `before.tau_g1` once execution reaches that indexing — but an
earlier failed comparison can return `some false` before a short vector
is ever indexed (see the counterexample). -/
theorem unchecked_indexing_spec :
    (∀ p : Parameters,
      (Accumulator.new p).tau_g1.length = p.num_g1_elements_needed ∧
      (Accumulator.new p).tau_g2.length = p.num_g2_elements_needed) ∧
    (∀ (acc : Accumulator) (k : PrivateKey),
      acc.update k = none ↔ acc.tau_g1.length < 2) ∧
    (∀ acc : Accumulator,
      acc.structure_check = none ↔
        acc.tau_g1.length < 2 ∨ acc.tau_g2.length < 2) ∧
    (∀ (b a : Accumulator), Accumulator.verify_updates b a [] = none) ∧
    (∀ (b a : Accumulator) (p : UpdateProof) (ps : List UpdateProof),
      b.tau_g1.length < 2 → Accumulator.verify_updates b a (p :: ps) = none) := by
  refine ⟨fun p => ⟨by simp [Accumulator.new], by simp [Accumulator.new]⟩,
    update_none_iff, structure_check_none_iff, fun b a => rfl, ?_⟩
  intro b a p ps h
  have hb : b.tau_g1[1]? = none := by
    rw [List.getElem?_eq_none_iff]
    omega
  cases hl : (p :: ps).getLast? with
  | none => simp [List.getLast?_eq_none_iff] at hl
  | some lu => simp [Accumulator.verify_updates, hb, hl]

/-- Witness for C10 (amended): on empty vectors, a one-proof
verification panics (none) at the `before.tau_g1[1]` indexing. -/
theorem unchecked_indexing_spec_witness :
    (⟨[], []⟩ : Accumulator).tau_g1.length < 2 ∧
    Accumulator.verify_updates ⟨[], []⟩ ⟨[], []⟩ [⟨1, 1, 1⟩] = none :=
  ⟨by decide,
    unchecked_indexing_spec.2.2.2.2 ⟨[], []⟩ ⟨[], []⟩ ⟨1, 1, 1⟩ [] (by decide)⟩

/-- C1: for a non-empty transcript and accumulators long enough that no
indexing panics, `verify_updates` returns true iff (1) the first proof's
stored previous point equals `before.tau_g1[1]`, (2) the last proof's
new point equals `after.tau_g1[1]`, (3) the chain verifier succeeds over
the whole transcript, (4) neither `after.tau_g1[0]` nor `after.tau_g2[0]`
is the group identity, and (5) `after.structure_check` succeeds; and
`verify_update` is literally the single-proof special case. -/
theorem verify_updates_spec (before after : Accumulator) (ps : List UpdateProof)
    (hne : ps ≠ []) (hb : 2 ≤ before.tau_g1.length)
    (ha1 : 2 ≤ after.tau_g1.length) (ha2 : 2 ≤ after.tau_g2.length) :
    (Accumulator.verify_updates before after ps = some true ↔
      (before.tau_g1[1]? = some (ps.head hne).previous_accumulated_point ∧
       after.tau_g1[1]? = some (ps.getLast hne).new_accumulated_point ∧
       UpdateProof.verify_chain_transcript ps = true ∧
       (after.tau_g1[0]? ≠ some 0 ∧ after.tau_g2[0]? ≠ some 0) ∧
       after.structure_check = some true)) ∧
    (∀ pr : UpdateProof,
      Accumulator.verify_update before after pr =
        Accumulator.verify_updates before after [pr]) := by
  refine ⟨?_, fun pr => rfl⟩
  have hh : ps.head? = some (ps.head hne) := List.head?_eq_head hne
  have hl : ps.getLast? = some (ps.getLast hne) := List.getLast?_eq_getLast ps hne
  have hb1 : before.tau_g1[1]? = some before.tau_g1[1] :=
    List.getElem?_eq_getElem (by omega)
  have he1 : after.tau_g1[1]? = some after.tau_g1[1] :=
    List.getElem?_eq_getElem (by omega)
  have he10 : after.tau_g1[0]? = some after.tau_g1[0] :=
    List.getElem?_eq_getElem (by omega)
  have he20 : after.tau_g2[0]? = some after.tau_g2[0] :=
    List.getElem?_eq_getElem (by omega)
  have hsc := structure_check_eq after ha1 ha2
  simp only [Accumulator.verify_updates, hh, hl, hb1, he1, he10, he20, hsc,
    Option.some.injEq, ne_eq]
  split_ifs <;> simp_all

/-- Witness for C1: a fresh 2-by-2 accumulator updated with secret 3;
the resulting one-proof transcript satisfies all five conditions, hence
verifies. -/
theorem verify_updates_spec_witness :
    (([⟨3, 1, 3⟩] : List UpdateProof) ≠ [] ∧
      2 ≤ (Accumulator.new ⟨2, 2⟩).tau_g1.length ∧
      2 ≤ (⟨[1, 3], [1, 3]⟩ : Accumulator).tau_g1.length ∧
      2 ≤ (⟨[1, 3], [1, 3]⟩ : Accumulator).tau_g2.length) ∧
    Accumulator.verify_updates (Accumulator.new ⟨2, 2⟩) ⟨[1, 3], [1, 3]⟩
      [⟨3, 1, 3⟩] = some true :=
  ⟨⟨by decide, by decide, by decide, by decide⟩,
    ((verify_updates_spec (Accumulator.new ⟨2, 2⟩) ⟨[1, 3], [1, 3]⟩ [⟨3, 1, 3⟩]
        (by decide) (by decide) (by decide) (by decide)).1).mpr
      ⟨by decide, by decide, by decide, ⟨by decide, by decide⟩, by decide⟩⟩

end SmallPowersOfTau
